import Mathlib

/-!
Shallow embedding of the signaling-relay core of `server.js`
(LargeFileTransfer): room registry, join / check-room / verify-password
handlers, WebRTC relay handlers, disconnect cleanup, the room expiry
sweep, and the per-IP connection rate limiter.

Modelling conventions:
* JavaScript values arriving on the socket are modelled by `JSVal`
  (strings, numbers, booleans, `null`, `undefined`, plain objects).
  Numbers are modelled as `Int`; the handlers only compare sizes with
  integer bounds.
* The `rooms` Map is an association list in insertion order; `Map.set`
  replaces an existing key in place or appends a fresh one at the end,
  `Map.delete` removes the key, matching JS `Map` iteration order.
* A JS `Set` of socket ids is a duplicate-free list in insertion order.
* `socket.to(roomId).emit(...)` is modelled as delivery to every member
  of the room except the sender, read from the member set held in the registry
  (the code keeps `room.users` in sync with socket.io room membership).
* Timestamps (`Date.now()`, `new Date()`) are `Nat` milliseconds.
-/

namespace LFT

/-- A JavaScript runtime value as far as the handlers inspect one. -/
inductive JSVal where
  | str (s : String)
  | num (n : Int)
  | jbool (b : Bool)
  | null
  | undefined
  | obj (fields : List (String × JSVal))
deriving Repr

/-- `typeof v` as the handlers use it (note `typeof null === "object"`). -/
def jsTypeof : JSVal → String
  | .str _ => "string"
  | .num _ => "number"
  | .jbool _ => "boolean"
  | .null => "object"
  | .undefined => "undefined"
  | .obj _ => "object"

/-- JS truthiness of a value. -/
def truthy : JSVal → Bool
  | .str s => s != ""
  | .num n => n != 0
  | .jbool b => b
  | .null => false
  | .undefined => false
  | .obj _ => true

/-- Property access `v.k`: field lookup on objects, `undefined` otherwise. -/
def jsGet (v : JSVal) (k : String) : JSVal :=
  match v with
  | .obj fields =>
    match fields.lookup k with
    | some w => w
    | none => .undefined
  | _ => .undefined

/-- The string payload of a value known to be a string. -/
def asString : JSVal → String
  | .str s => s
  | _ => ""

/-- The numeric payload of a value known to be a number. -/
def asNum : JSVal → Int
  | .num n => n
  | _ => 0

/-- Strict equality `v === s` against a string operand (as in
`room.passwordHash === passwordHash` where the right side is a string). -/
def strictEqStr : JSVal → String → Bool
  | .str t, s => t == s
  | _, _ => false

/-- The room-id pattern: 8 to 15 characters, each an ASCII letter or
digit. -/
def validRoomIdStr (s : String) : Bool :=
  decide (8 ≤ s.data.length) && decide (s.data.length ≤ 15) &&
    s.data.all (fun c => c.isAlpha || c.isDigit)

/-- `isValidRoomId(roomId)`: a string matching the room-id pattern. -/
def isValidRoomId (v : JSVal) : Bool :=
  jsTypeof v == "string" && validRoomIdStr (asString v)

/-- `isValidSocketData(data)`: truthy object whose `roomId` field is valid. -/
def isValidSocketData (data : JSVal) : Bool :=
  truthy data && jsTypeof data == "object" && isValidRoomId (jsGet data "roomId")

/-- One room: member-id set, stored password hash (`null` when
unprotected), creation time. -/
structure Room where
  users : List String
  passwordHash : JSVal
  createdAt : Nat
deriving Repr

/-- The in-memory room registry, keyed by room id. -/
abbrev Rooms := List (String × Room)

/-- `Map.set`: replace the value at an existing key, else append. -/
def mapSet {α : Type} (m : List (String × α)) (k : String) (v : α) :
    List (String × α) :=
  match m with
  | [] => [(k, v)]
  | (k', v') :: rest =>
    if k' = k then (k, v) :: rest else (k', v') :: mapSet rest k v

/-- `Set.add`: append the element unless already present. -/
def addUser (users : List String) (sid : String) : List String :=
  if sid ∈ users then users else users ++ [sid]

/-- A message the server emits to some socket. -/
inductive ServerMsg where
  | offerMsg (sdp : JSVal) (fromId : String)
  | answerMsg (sdp : JSVal) (fromId : String)
  | iceCandidateMsg (candidate : JSVal) (fromId : String)
  | fileMetaMsg (metadata : JSVal)
  | transferDoneMsg
  | transferConfirmedMsg
  | userJoinedMsg (sid : String)
  | userLeftMsg (userId : String)
deriving Repr

/-- `socket.to(roomId).emit(msg)`: every member of the room except the
sender receives `msg`; nobody if the room does not exist. -/
def emitToRoom (rooms : Rooms) (rid sender : String) (msg : ServerMsg) :
    List (String × ServerMsg) :=
  match rooms.lookup rid with
  | none => []
  | some room => (room.users.filter (fun m => m != sender)).map (fun m => (m, msg))

/-- Reply of the `check-room` handler. -/
inductive CheckRoomReply where
  | roomNotFound
  | roomInfo (roomExists isProtected hasUsers : Bool)
deriving Repr, DecidableEq

/-- `check-room` handler: never mutates the registry; answers
`room-not-found` or `room-info` with the exists, isProtected and
hasUsers flags. -/
def checkRoom (rooms : Rooms) (roomIdV : JSVal) : Rooms × CheckRoomReply :=
  if !isValidRoomId roomIdV then (rooms, .roomNotFound)
  else
    match rooms.lookup (asString roomIdV) with
    | none => (rooms, .roomNotFound)
    | some room =>
      (rooms, .roomInfo true (truthy room.passwordHash) (!room.users.isEmpty))

/-- `verify-password` handler: answers the `valid` flag of
`password-verified`; never mutates the registry. -/
def verifyPassword (rooms : Rooms) (roomIdV pwV : JSVal) : Rooms × Bool :=
  if !isValidRoomId roomIdV || jsTypeof pwV != "string" then (rooms, false)
  else
    match rooms.lookup (asString roomIdV) with
    | none => (rooms, false)
    | some room => (rooms, strictEqStr room.passwordHash (asString pwV))

/-- Acknowledgement delivered to a `join-room` caller. -/
inductive JoinAck where
  | ok (roomId : String)
  | err (msg : String)
deriving Repr, DecidableEq

/-- Whether a join acknowledgement is the error form, success false. -/
def JoinAck.isErr : JoinAck → Bool
  | .ok _ => false
  | .err _ => true

/-- Payload-normalisation step of `join-room`: the room id, password
hash and protection flag as the handler reads them from the bare-string
or object payload form, or `none` for a malformed payload. -/
def extractJoinData (data : JSVal) : Option (JSVal × JSVal × JSVal) :=
  if jsTypeof data == "string" then
    some (data, .null, .jbool false)
  else if jsTypeof data == "object" && truthy (jsGet data "roomId") then
    some (jsGet data "roomId",
      (if truthy (jsGet data "passwordHash") then jsGet data "passwordHash"
       else .null),
      (if truthy (jsGet data "isProtected") then jsGet data "isProtected"
       else .jbool false))
  else none

/-- The room-creation step of `join-room`: when no room with this id
exists, create it protected with the supplied hash if both the
protection flag and the hash are truthy, else unprotected; an existing
room is left as it is. -/
def createRoomIfAbsent (rooms : Rooms) (rid : String)
    (passwordHash isProtected : JSVal) (now : Nat) : Rooms :=
  if truthy isProtected && truthy passwordHash then
    if (rooms.lookup rid).isNone then
      mapSet rooms rid ⟨[], passwordHash, now⟩
    else rooms
  else if (rooms.lookup rid).isNone then
    mapSet rooms rid ⟨[], .null, now⟩
  else rooms

/-- `join-room` handler. Accepts the legacy bare-string form and the
object form carrying roomId with optional passwordHash and isProtected
fields; validates the room id; creates the room when absent; adds the
caller to the member set; acks; and notifies the other members.
Returns the new registry, the ack, and the `user-joined` deliveries. -/
def joinRoom (rooms : Rooms) (sid : String) (now : Nat) (data : JSVal) :
    Rooms × JoinAck × List (String × ServerMsg) :=
  match extractJoinData data with
  | none => (rooms, .err "Invalid data", [])
  | some (roomIdV, passwordHash, isProtected) =>
    if !isValidRoomId roomIdV then (rooms, .err "Invalid room ID", [])
    else
      let rid := asString roomIdV
      let rooms1 := createRoomIfAbsent rooms rid passwordHash isProtected now
      let room := (rooms1.lookup rid).getD ⟨[], .null, now⟩
      let room' := { room with users := addUser room.users sid }
      let rooms2 := mapSet rooms1 rid room'
      (rooms2, .ok rid,
        (room'.users.filter (fun m => m != sid)).map
          (fun m => (m, .userJoinedMsg sid)))

/-- `offer` handler: silently drops invalid data, else relays
the sdp plus the sender id to the rest of the room. Never mutates the
registry. -/
def offerHandler (rooms : Rooms) (sender : String) (data : JSVal) :
    Rooms × List (String × ServerMsg) :=
  if !isValidSocketData data || !truthy (jsGet data "sdp") then (rooms, [])
  else
    (rooms, emitToRoom rooms (asString (jsGet data "roomId")) sender
      (.offerMsg (jsGet data "sdp") sender))

/-- `answer` handler: same shape as `offer`. -/
def answerHandler (rooms : Rooms) (sender : String) (data : JSVal) :
    Rooms × List (String × ServerMsg) :=
  if !isValidSocketData data || !truthy (jsGet data "sdp") then (rooms, [])
  else
    (rooms, emitToRoom rooms (asString (jsGet data "roomId")) sender
      (.answerMsg (jsGet data "sdp") sender))

/-- `ice-candidate` handler: relays the candidate plus the sender id. -/
def iceCandidateHandler (rooms : Rooms) (sender : String) (data : JSVal) :
    Rooms × List (String × ServerMsg) :=
  if !isValidSocketData data || !truthy (jsGet data "candidate") then (rooms, [])
  else
    (rooms, emitToRoom rooms (asString (jsGet data "roomId")) sender
      (.iceCandidateMsg (jsGet data "candidate") sender))

/-- 10 GiB, the `file-meta` size cap. -/
def MAX_FILE_SIZE : Int := 10 * 1024 * 1024 * 1024

/-- `file-meta` handler: checks the payload shape and the metadata
(`name` a string, `size` a number in `[0, 10 GiB]`), then relays the
metadata verbatim; drops silently otherwise. -/
def fileMetaHandler (rooms : Rooms) (sender : String) (data : JSVal) :
    Rooms × List (String × ServerMsg) :=
  if !isValidSocketData data || !truthy (jsGet data "metadata")
      || jsTypeof (jsGet data "metadata") != "object" then (rooms, [])
  else
    let md := jsGet data "metadata"
    if jsTypeof (jsGet md "name") != "string"
        || jsTypeof (jsGet md "size") != "number"
        || asNum (jsGet md "size") < 0
        || asNum (jsGet md "size") > MAX_FILE_SIZE then (rooms, [])
    else
      (rooms, emitToRoom rooms (asString (jsGet data "roomId")) sender
        (.fileMetaMsg md))

/-- `transfer-done` handler: validates only the room id, relays a bare
status event. -/
def transferDoneHandler (rooms : Rooms) (sender : String) (data : JSVal) :
    Rooms × List (String × ServerMsg) :=
  if !isValidSocketData data then (rooms, [])
  else
    (rooms, emitToRoom rooms (asString (jsGet data "roomId")) sender
      .transferDoneMsg)

/-- `transfer-confirmed` handler: validates only the room id, relays a
bare status event. -/
def transferConfirmedHandler (rooms : Rooms) (sender : String) (data : JSVal) :
    Rooms × List (String × ServerMsg) :=
  if !isValidSocketData data then (rooms, [])
  else
    (rooms, emitToRoom rooms (asString (jsGet data "roomId")) sender
      .transferConfirmedMsg)

/-- Per-source-address rate state: attempts seen in the current window
and the start time of the window. -/
structure RateState where
  count : Nat
  firstConnection : Nat
deriving Repr, DecidableEq

/-- The per-IP connection-count map. -/
abbrev RateMap := List (String × RateState)

/-- `RATE_LIMIT_WINDOW`: one minute in milliseconds. -/
def RATE_LIMIT_WINDOW : Nat := 60000

/-- `MAX_CONNECTIONS_PER_IP`. -/
def MAX_CONNECTIONS_PER_IP : Nat := 10

/-- The `io.use` rate-limiting middleware for one connection attempt:
returns the updated map and whether the connection is admitted. -/
def rateLimitAdmit (m : RateMap) (ip : String) (now : Nat) : RateMap × Bool :=
  match m.lookup ip with
  | none => (mapSet m ip ⟨1, now⟩, true)
  | some ipData =>
    if now - ipData.firstConnection ≤ RATE_LIMIT_WINDOW then
      if ipData.count ≥ MAX_CONNECTIONS_PER_IP then (m, false)
      else (mapSet m ip ⟨ipData.count + 1, ipData.firstConnection⟩, true)
    else (mapSet m ip ⟨1, now⟩, true)

/-- A sequence of connection attempts from one address, in time order:
the final map and the per-attempt admission decisions. -/
def runAdmits (m : RateMap) (ip : String) : List Nat → RateMap × List Bool
  | [] => (m, [])
  | t :: ts =>
    let step := rateLimitAdmit m ip t
    let rest := runAdmits step.1 ip ts
    (rest.1, step.2 :: rest.2)

/-- `ROOM_TIMEOUT`: ten minutes in milliseconds. -/
def ROOM_TIMEOUT : Nat := 10 * 60 * 1000

/-- The periodic room-cleanup sweep: deletes every room strictly older
than `ROOM_TIMEOUT` whose member set is empty. -/
def sweepRooms (rooms : Rooms) (now : Nat) : Rooms :=
  rooms.filter (fun p =>
    !(decide (now - p.2.createdAt > ROOM_TIMEOUT) && p.2.users.isEmpty))

/-- `Set.delete`: removal of an element from a member set. -/
def removeUser (users : List String) (sid : String) : List String :=
  users.filter (fun u => u != sid)

/-- `disconnect` handler: walks the registry; in every room holding the
socket id it deletes the id, emits `user-left` with that id to the remaining
members, and drops the room when it became empty. Returns the new
registry and, per affected room, the room id with the recipients of its
`user-left` notice. -/
def disconnectCleanup (rooms : Rooms) (sid : String) :
    Rooms × List (String × List String) :=
  match rooms with
  | [] => ([], [])
  | (rid, room) :: rest =>
    let tail := disconnectCleanup rest sid
    if sid ∈ room.users then
      let remaining := removeUser room.users sid
      let kept :=
        if remaining.isEmpty then tail.1
        else (rid, { room with users := remaining }) :: tail.1
      (kept, (rid, remaining) :: tail.2)
    else ((rid, room) :: tail.1, tail.2)

/-- Whether `sid` is currently a member of room `rid`. -/
def memberOf (rooms : Rooms) (rid sid : String) : Bool :=
  match rooms.lookup rid with
  | some room => sid ∈ room.users
  | none => false

/-- An invalid-shape room id is rejected at every message entry point
without touching the registry. -/
def roomIdRejectedEverywhere (s : String) (rooms : Rooms) (sid : String)
    (now : Nat) (pwV data : JSVal) (rest : List (String × JSVal)) : Prop :=
  checkRoom rooms (.str s) = (rooms, .roomNotFound) ∧
  verifyPassword rooms (.str s) pwV = (rooms, false) ∧
  joinRoom rooms sid now (.str s) = (rooms, .err "Invalid room ID", []) ∧
  (joinRoom rooms sid now (.obj (("roomId", JSVal.str s) :: rest))).1 = rooms ∧
  (joinRoom rooms sid now (.obj (("roomId", JSVal.str s) :: rest))).2.1.isErr = true ∧
  (joinRoom rooms sid now (.obj (("roomId", JSVal.str s) :: rest))).2.2 = [] ∧
  offerHandler rooms sid data = (rooms, []) ∧
  answerHandler rooms sid data = (rooms, []) ∧
  iceCandidateHandler rooms sid data = (rooms, []) ∧
  fileMetaHandler rooms sid data = (rooms, []) ∧
  transferDoneHandler rooms sid data = (rooms, []) ∧
  transferConfirmedHandler rooms sid data = (rooms, [])

/-- The file-meta acceptance condition in the positive phrasing of the
specification, with the name condition matching the code: the payload
is a well-formed object with a valid room id, and the metadata is an
object whose name is a string and whose size is a number between 0 and
10 GiB inclusive. (The spec additionally demands a NON-empty name; the
code only checks that the name is a string, so an empty name is
accepted.) -/
def specFileMetaValid (data : JSVal) : Bool :=
  isValidSocketData data && truthy (jsGet data "metadata")
    && (jsTypeof (jsGet data "metadata") == "object")
    && (jsTypeof (jsGet (jsGet data "metadata") "name") == "string")
    && (jsTypeof (jsGet (jsGet data "metadata") "size") == "number")
    && decide (0 ≤ asNum (jsGet (jsGet data "metadata") "size"))
    && decide (asNum (jsGet (jsGet data "metadata") "size") ≤ MAX_FILE_SIZE)


theorem lookup_mapSet_self {α : Type} (m : List (String × α)) (k : String) (v : α) :
    (mapSet m k v).lookup k = some v := by
  induction m with
  | nil => simp [mapSet]
  | cons p rest ih =>
    obtain ⟨k', v'⟩ := p
    by_cases h : k' = k
    · subst h; simp [mapSet]
    · have hb : (k == k') = false := beq_eq_false_iff_ne.mpr (Ne.symm h)
      simp [mapSet, h, List.lookup, hb, ih]

theorem lookup_mapSet_ne {α : Type} (m : List (String × α)) (k k' : String) (v : α)
    (h : k' ≠ k) : (mapSet m k v).lookup k' = m.lookup k' := by
  have hb : (k' == k) = false := beq_eq_false_iff_ne.mpr h
  induction m with
  | nil => simp [mapSet, List.lookup, hb]
  | cons p rest ih =>
    obtain ⟨k0, v0⟩ := p
    by_cases h0 : k0 = k
    · subst h0; simp [mapSet, List.lookup, hb]
    · simp [mapSet, h0, List.lookup, ih]

theorem validRoomIdStr_ne_empty (s : String) (h : validRoomIdStr s = true) :
    (s != "") = true := by
  cases heq : s == ""
  · simp [bne, heq]
  · exfalso
    have hs : s = "" := by simpa using heq
    subst hs
    simp [validRoomIdStr] at h

theorem isValidRoomId_str (s : String) :
    isValidRoomId (JSVal.str s) = validRoomIdStr s := by
  simp [isValidRoomId, jsTypeof, asString]

theorem mem_addUser_self (users : List String) (sid : String) :
    sid ∈ addUser users sid := by
  by_cases h : sid ∈ users <;> simp [addUser, h]

theorem extractJoinData_str (s : String) :
    extractJoinData (JSVal.str s) =
      some (JSVal.str s, JSVal.null, JSVal.jbool false) := by
  simp [extractJoinData, jsTypeof]

theorem extractJoinData_obj (rid : String) (hne : (rid != "") = true)
    (pwV protV : JSVal) :
    extractJoinData (JSVal.obj [("roomId", JSVal.str rid),
        ("passwordHash", pwV), ("isProtected", protV)]) =
      some (JSVal.str rid, (if truthy pwV then pwV else JSVal.null),
        (if truthy protV then protV else JSVal.jbool false)) := by
  simp [extractJoinData, jsTypeof, jsGet, List.lookup, truthy, hne]

theorem createRoomIfAbsent_none (rooms : Rooms) (rid : String)
    (pwX protX : JSVal) (now : Nat) (h : rooms.lookup rid = none) :
    createRoomIfAbsent rooms rid pwX protX now =
      mapSet rooms rid
        ⟨[], if truthy protX && truthy pwX then pwX else JSVal.null, now⟩ := by
  unfold createRoomIfAbsent
  rw [h]
  by_cases hg : (truthy protX && truthy pwX) = true
  · simp [hg]
  · simp only [Bool.not_eq_true] at hg
    simp [hg]

theorem createRoomIfAbsent_some (rooms : Rooms) (rid : String)
    (pwX protX : JSVal) (now : Nat) (room : Room)
    (h : rooms.lookup rid = some room) :
    createRoomIfAbsent rooms rid pwX protX now = rooms := by
  unfold createRoomIfAbsent
  rw [h]
  simp


/-- Claim C1: a room id that fails the 8-to-15-alphanumeric shape check is
rejected or silently dropped by every entry point, and the room
registry is left completely unchanged; join-room answers with an
explicit error ack while the relay-type handlers drop silently. -/
theorem claim1_invalid_room_id_rejected
    (s : String) (hs : validRoomIdStr s = false)
    (rooms : Rooms) (sid : String) (now : Nat) (pwV : JSVal)
    (data : JSVal) (hdata : jsGet data "roomId" = JSVal.str s)
    (rest : List (String × JSVal)) :
    roomIdRejectedEverywhere s rooms sid now pwV data rest := by
  have hinv : isValidRoomId (JSVal.str s) = false := by
    simp [isValidRoomId, jsTypeof, asString, hs]
  have hsock : isValidSocketData data = false := by
    simp [isValidSocketData, hdata, hinv]
  refine ⟨?_, ?_, ?_, ?_, ?_, ?_, ?_, ?_, ?_, ?_, ?_, ?_⟩
  · simp [checkRoom, hinv]
  · simp [verifyPassword, hinv]
  · simp [joinRoom, extractJoinData_str, hinv]
  · cases hse : s == "" <;>
      simp [joinRoom, extractJoinData, jsTypeof, jsGet, List.lookup, truthy,
        bne, hse, hinv]
  · cases hse : s == "" <;>
      simp [joinRoom, extractJoinData, jsTypeof, jsGet, List.lookup, truthy,
        bne, hse, hinv, JoinAck.isErr]
  · cases hse : s == "" <;>
      simp [joinRoom, extractJoinData, jsTypeof, jsGet, List.lookup, truthy,
        bne, hse, hinv]
  · simp [offerHandler, hsock]
  · simp [answerHandler, hsock]
  · simp [iceCandidateHandler, hsock]
  · simp [fileMetaHandler, hsock]
  · simp [transferDoneHandler, hsock]
  · simp [transferConfirmedHandler, hsock]

/-- Witness for C1 at the concrete invalid room id "ab". -/
theorem claim1_witness :
    validRoomIdStr "ab" = false ∧
    jsGet (JSVal.obj [("roomId", JSVal.str "ab"), ("sdp", JSVal.str "x")])
      "roomId" = JSVal.str "ab" ∧
    roomIdRejectedEverywhere "ab"
      [("ABCDEFGH", ⟨["alice"], JSVal.null, 0⟩)] "sock1" 7 JSVal.null
      (JSVal.obj [("roomId", JSVal.str "ab"), ("sdp", JSVal.str "x")]) [] :=
  ⟨by decide, rfl,
    claim1_invalid_room_id_rejected "ab" (by decide)
      [("ABCDEFGH", ⟨["alice"], JSVal.null, 0⟩)] "sock1" 7 JSVal.null
      (JSVal.obj [("roomId", JSVal.str "ab"), ("sdp", JSVal.str "x")]) rfl []⟩

theorem joinRoom_new_obj_lookup
    (rooms : Rooms) (sid rid pw : String) (b : Bool) (now : Nat)
    (hvalid : validRoomIdStr rid = true) (hnone : rooms.lookup rid = none) :
    (joinRoom rooms sid now
        (JSVal.obj [("roomId", JSVal.str rid), ("passwordHash", JSVal.str pw),
          ("isProtected", JSVal.jbool b)])).1.lookup rid =
      some ⟨[sid], if b && (pw != "") then JSVal.str pw else JSVal.null, now⟩ := by
  have hne : (rid != "") = true := validRoomIdStr_ne_empty rid hvalid
  have hex := extractJoinData_obj rid hne (JSVal.str pw) (JSVal.jbool b)
  have hval : isValidRoomId (JSVal.str rid) = true := by
    rw [isValidRoomId_str]; exact hvalid
  rw [joinRoom, hex]
  simp only [hval, Bool.not_true, if_neg, asString]
  rw [createRoomIfAbsent_none rooms rid _ _ now hnone]
  by_cases hpw : pw = "" <;> cases hb : b <;>
    simp [lookup_mapSet_self, addUser, truthy, bne, hpw]

theorem joinRoom_new_str_lookup
    (rooms : Rooms) (sid rid : String) (now : Nat)
    (hvalid : validRoomIdStr rid = true) (hnone : rooms.lookup rid = none) :
    (joinRoom rooms sid now (JSVal.str rid)).1.lookup rid =
      some ⟨[sid], JSVal.null, now⟩ := by
  have hval : isValidRoomId (JSVal.str rid) = true := by
    rw [isValidRoomId_str]; exact hvalid
  rw [joinRoom, extractJoinData_str]
  simp only [hval, Bool.not_true, if_neg, asString]
  rw [createRoomIfAbsent_none rooms rid _ _ now hnone]
  simp [lookup_mapSet_self, addUser, truthy]

theorem joinRoom_existing_lookup
    (rooms : Rooms) (sid rid pw : String) (b : Bool) (now : Nat) (room : Room)
    (hvalid : validRoomIdStr rid = true) (hsome : rooms.lookup rid = some room) :
    (joinRoom rooms sid now
        (JSVal.obj [("roomId", JSVal.str rid), ("passwordHash", JSVal.str pw),
          ("isProtected", JSVal.jbool b)])).1.lookup rid =
      some ⟨addUser room.users sid, room.passwordHash, room.createdAt⟩ := by
  have hne : (rid != "") = true := validRoomIdStr_ne_empty rid hvalid
  have hex := extractJoinData_obj rid hne (JSVal.str pw) (JSVal.jbool b)
  have hval : isValidRoomId (JSVal.str rid) = true := by
    rw [isValidRoomId_str]; exact hvalid
  rw [joinRoom, hex]
  simp only [hval, Bool.not_true, if_neg, asString]
  rw [createRoomIfAbsent_some rooms rid _ _ now room hsome]
  rw [hsome]
  simp [lookup_mapSet_self]

/-- Claim C2: with a valid room id, join-room creates a missing room,
protected with the supplied hash exactly when the protection flag is
true and the supplied hash is a non-empty string, else unprotected
with a null hash; an existing room keeps its hash and creation time
unchanged (first-writer-wins), only gaining the caller as a member. -/
theorem claim2_join_creation_first_writer_wins
    (rooms : Rooms) (sid rid pw : String) (b : Bool) (now : Nat)
    (hvalid : validRoomIdStr rid = true) :
    (rooms.lookup rid = none →
      (joinRoom rooms sid now
          (JSVal.obj [("roomId", JSVal.str rid), ("passwordHash", JSVal.str pw),
            ("isProtected", JSVal.jbool b)])).1.lookup rid =
        some ⟨[sid], if b && (pw != "") then JSVal.str pw else JSVal.null, now⟩) ∧
    (rooms.lookup rid = none →
      (joinRoom rooms sid now (JSVal.str rid)).1.lookup rid =
        some ⟨[sid], JSVal.null, now⟩) ∧
    (∀ room : Room, rooms.lookup rid = some room →
      (joinRoom rooms sid now
          (JSVal.obj [("roomId", JSVal.str rid), ("passwordHash", JSVal.str pw),
            ("isProtected", JSVal.jbool b)])).1.lookup rid =
        some ⟨addUser room.users sid, room.passwordHash, room.createdAt⟩) :=
  ⟨joinRoom_new_obj_lookup rooms sid rid pw b now hvalid,
   joinRoom_new_str_lookup rooms sid rid now hvalid,
   fun room hsome => joinRoom_existing_lookup rooms sid rid pw b now room hvalid hsome⟩

/-- Witness for C2 at a concrete fresh protected room. -/
theorem claim2_witness :
    validRoomIdStr "ROOMAAAA" = true ∧
    (List.lookup "ROOMAAAA" ([] : Rooms) = none →
      (joinRoom [] "alice" 5
          (JSVal.obj [("roomId", JSVal.str "ROOMAAAA"), ("passwordHash", JSVal.str "h1"),
            ("isProtected", JSVal.jbool true)])).1.lookup "ROOMAAAA" =
        some ⟨["alice"], if true && ("h1" != "") then JSVal.str "h1" else JSVal.null, 5⟩) ∧
    (List.lookup "ROOMAAAA" ([] : Rooms) = none →
      (joinRoom [] "alice" 5 (JSVal.str "ROOMAAAA")).1.lookup "ROOMAAAA" =
        some ⟨["alice"], JSVal.null, 5⟩) ∧
    (∀ room : Room, List.lookup "ROOMAAAA" ([] : Rooms) = some room →
      (joinRoom [] "alice" 5
          (JSVal.obj [("roomId", JSVal.str "ROOMAAAA"), ("passwordHash", JSVal.str "h1"),
            ("isProtected", JSVal.jbool true)])).1.lookup "ROOMAAAA" =
        some ⟨addUser room.users "alice", room.passwordHash, room.createdAt⟩) :=
  ⟨by decide,
    (claim2_join_creation_first_writer_wins [] "alice" "ROOMAAAA" "h1" true 5 (by decide)).1,
    (claim2_join_creation_first_writer_wins [] "alice" "ROOMAAAA" "h1" true 5 (by decide)).2.1,
    (claim2_join_creation_first_writer_wins [] "alice" "ROOMAAAA" "h1" true 5 (by decide)).2.2⟩

/-- Claim C4: join-room with a valid-shape room id always succeeds and adds
the caller to the member set, whatever the supplied password hash or
protection flag and whatever the stored hash of an existing room:
join never compares the supplied hash against the stored one. -/
theorem claim4_join_ignores_password
    (rooms : Rooms) (sid rid : String) (now : Nat) (pwV protV : JSVal)
    (hvalid : validRoomIdStr rid = true) :
    ((joinRoom rooms sid now
        (JSVal.obj [("roomId", JSVal.str rid), ("passwordHash", pwV),
          ("isProtected", protV)])).2.1 = JoinAck.ok rid ∧
      memberOf (joinRoom rooms sid now
        (JSVal.obj [("roomId", JSVal.str rid), ("passwordHash", pwV),
          ("isProtected", protV)])).1 rid sid = true) ∧
    ((joinRoom rooms sid now (JSVal.str rid)).2.1 = JoinAck.ok rid ∧
      memberOf (joinRoom rooms sid now (JSVal.str rid)).1 rid sid = true) := by
  have hne : (rid != "") = true := validRoomIdStr_ne_empty rid hvalid
  have hex := extractJoinData_obj rid hne pwV protV
  have hval : isValidRoomId (JSVal.str rid) = true := by
    rw [isValidRoomId_str]; exact hvalid
  constructor
  · constructor
    · rw [joinRoom, hex]
      simp [hval, asString]
    · rw [joinRoom, hex]
      simp [hval, asString, memberOf, lookup_mapSet_self, mem_addUser_self]
  · constructor
    · rw [joinRoom, extractJoinData_str]
      simp [hval, asString]
    · rw [joinRoom, extractJoinData_str]
      simp [hval, asString, memberOf, lookup_mapSet_self, mem_addUser_self]

/-- Witness for C4: joining an existing protected room with a wrong hash
still succeeds. -/
theorem claim4_witness :
    validRoomIdStr "ROOMBBBB" = true ∧
    ((joinRoom [("ROOMBBBB", ⟨["alice"], JSVal.str "right", 3⟩)] "bob" 9
        (JSVal.obj [("roomId", JSVal.str "ROOMBBBB"), ("passwordHash", JSVal.str "WRONG"),
          ("isProtected", JSVal.jbool true)])).2.1 = JoinAck.ok "ROOMBBBB" ∧
      memberOf (joinRoom [("ROOMBBBB", ⟨["alice"], JSVal.str "right", 3⟩)] "bob" 9
        (JSVal.obj [("roomId", JSVal.str "ROOMBBBB"), ("passwordHash", JSVal.str "WRONG"),
          ("isProtected", JSVal.jbool true)])).1 "ROOMBBBB" "bob" = true) ∧
    ((joinRoom [("ROOMBBBB", ⟨["alice"], JSVal.str "right", 3⟩)] "bob" 9
        (JSVal.str "ROOMBBBB")).2.1 = JoinAck.ok "ROOMBBBB" ∧
      memberOf (joinRoom [("ROOMBBBB", ⟨["alice"], JSVal.str "right", 3⟩)] "bob" 9
        (JSVal.str "ROOMBBBB")).1 "ROOMBBBB" "bob" = true) :=
  ⟨by decide,
    claim4_join_ignores_password [("ROOMBBBB", ⟨["alice"], JSVal.str "right", 3⟩)]
      "bob" "ROOMBBBB" 9 (JSVal.str "WRONG") (JSVal.jbool true) (by decide)⟩

theorem verifyPassword_some (rooms : Rooms) (rid pw : String) (room : Room)
    (hvalid : validRoomIdStr rid = true) (hsome : rooms.lookup rid = some room) :
    verifyPassword rooms (JSVal.str rid) (JSVal.str pw) =
      (rooms, strictEqStr room.passwordHash pw) := by
  simp [verifyPassword, isValidRoomId, jsTypeof, asString, hvalid, hsome]

theorem verifyPassword_null_hash (rooms : Rooms) (rid : String) (room : Room)
    (pwV : JSVal) (hsome : rooms.lookup rid = some room)
    (hnull : room.passwordHash = JSVal.null) :
    verifyPassword rooms (JSVal.str rid) pwV = (rooms, false) := by
  unfold verifyPassword
  by_cases h1 : (!isValidRoomId (JSVal.str rid) || jsTypeof pwV != "string") = true
  · rw [if_pos h1]
  · rw [if_neg h1]
    simp [asString, hsome, hnull, strictEqStr]

/-- Claim C3: password verification round-trip. A room created protected with
hash H verifies H to true and any other string to false; an unknown
room id, an invalid-shape room id, or a non-string hash argument
verifies to false; and a room stored unprotected verifies any non-null
hash to false. -/
theorem claim3_password_round_trip
    (rooms0 roomsU roomsZ : Rooms) (sid rid pwh other ridU sBad ridZ : String)
    (now : Nat) (pwU pwT pwZ vT : JSVal) (roomZ : Room)
    (hvalid : validRoomIdStr rid = true) (hne : (pwh != "") = true)
    (hnone : rooms0.lookup rid = none) :
    (verifyPassword (joinRoom rooms0 sid now
        (JSVal.obj [("roomId", JSVal.str rid), ("passwordHash", JSVal.str pwh),
          ("isProtected", JSVal.jbool true)])).1 (JSVal.str rid) (JSVal.str pwh) =
      ((joinRoom rooms0 sid now
        (JSVal.obj [("roomId", JSVal.str rid), ("passwordHash", JSVal.str pwh),
          ("isProtected", JSVal.jbool true)])).1, true)) ∧
    (other ≠ pwh →
      verifyPassword (joinRoom rooms0 sid now
          (JSVal.obj [("roomId", JSVal.str rid), ("passwordHash", JSVal.str pwh),
            ("isProtected", JSVal.jbool true)])).1 (JSVal.str rid) (JSVal.str other) =
        ((joinRoom rooms0 sid now
          (JSVal.obj [("roomId", JSVal.str rid), ("passwordHash", JSVal.str pwh),
            ("isProtected", JSVal.jbool true)])).1, false)) ∧
    (roomsU.lookup ridU = none →
      verifyPassword roomsU (JSVal.str ridU) pwU = (roomsU, false)) ∧
    (validRoomIdStr sBad = false →
      verifyPassword roomsU (JSVal.str sBad) pwU = (roomsU, false)) ∧
    ((jsTypeof pwT == "string") = false →
      verifyPassword roomsU vT pwT = (roomsU, false)) ∧
    (roomsZ.lookup ridZ = some roomZ → roomZ.passwordHash = JSVal.null →
      pwZ ≠ JSVal.null → verifyPassword roomsZ (JSVal.str ridZ) pwZ = (roomsZ, false)) := by
  have hlook := joinRoom_new_obj_lookup rooms0 sid rid pwh true now hvalid hnone
  rw [hne] at hlook
  simp only [Bool.true_and, if_pos] at hlook
  refine ⟨?_, ?_, ?_, ?_, ?_, ?_⟩
  · rw [verifyPassword_some _ rid pwh _ hvalid hlook]
    simp [strictEqStr]
  · intro hother
    rw [verifyPassword_some _ rid other _ hvalid hlook]
    simp [strictEqStr, beq_eq_false_iff_ne.mpr (Ne.symm hother)]
  · intro hU
    unfold verifyPassword
    by_cases h1 : (!isValidRoomId (JSVal.str ridU) || jsTypeof pwU != "string") = true
    · rw [if_pos h1]
    · rw [if_neg h1]
      simp [asString, hU]
  · intro hBad
    have h1 : isValidRoomId (JSVal.str sBad) = false := by
      rw [isValidRoomId_str]; exact hBad
    simp [verifyPassword, h1]
  · intro hT
    have h1 : (jsTypeof pwT != "string") = true := by
      simp [bne, hT]
    simp [verifyPassword, h1]
  · intro hsome hnull _
    exact verifyPassword_null_hash roomsZ ridZ roomZ pwZ hsome hnull

/-- Witness for C3 at concrete rooms and hashes. -/
theorem claim3_witness :
    validRoomIdStr "ROOMDDDD" = true ∧ (("hashA" : String) != "") = true ∧
    List.lookup "ROOMDDDD" ([] : Rooms) = none ∧
    (verifyPassword (joinRoom [] "alice" 4
        (JSVal.obj [("roomId", JSVal.str "ROOMDDDD"), ("passwordHash", JSVal.str "hashA"),
          ("isProtected", JSVal.jbool true)])).1 (JSVal.str "ROOMDDDD") (JSVal.str "hashA") =
      ((joinRoom [] "alice" 4
        (JSVal.obj [("roomId", JSVal.str "ROOMDDDD"), ("passwordHash", JSVal.str "hashA"),
          ("isProtected", JSVal.jbool true)])).1, true)) ∧
    (verifyPassword (joinRoom [] "alice" 4
        (JSVal.obj [("roomId", JSVal.str "ROOMDDDD"), ("passwordHash", JSVal.str "hashA"),
          ("isProtected", JSVal.jbool true)])).1 (JSVal.str "ROOMDDDD") (JSVal.str "hashB") =
      ((joinRoom [] "alice" 4
        (JSVal.obj [("roomId", JSVal.str "ROOMDDDD"), ("passwordHash", JSVal.str "hashA"),
          ("isProtected", JSVal.jbool true)])).1, false)) ∧
    verifyPassword [] (JSVal.str "ROOMEEEE") (JSVal.str "x") = ([], false) ∧
    verifyPassword [] (JSVal.str "ab") (JSVal.str "x") = ([], false) ∧
    verifyPassword [] (JSVal.str "ROOMEEEE") (JSVal.num 3) = ([], false) ∧
    verifyPassword [("ROOMFFFF", ⟨["alice"], JSVal.null, 2⟩)] (JSVal.str "ROOMFFFF")
      (JSVal.str "guess") = ([("ROOMFFFF", ⟨["alice"], JSVal.null, 2⟩)], false) := by
  have h := claim3_password_round_trip [] [] [("ROOMFFFF", ⟨["alice"], JSVal.null, 2⟩)]
    "alice" "ROOMDDDD" "hashA" "hashB" "ROOMEEEE" "ab" "ROOMFFFF" 4
    (JSVal.str "x") (JSVal.num 3) (JSVal.str "guess") (JSVal.str "x")
    ⟨["alice"], JSVal.null, 2⟩ (by decide) (by decide) rfl
  exact ⟨by decide, by decide, rfl, h.1, h.2.1 (by decide), h.2.2.1 rfl,
    h.2.2.2.1 (by decide), h.2.2.2.2.1 (by decide),
    h.2.2.2.2.2 rfl rfl (by intro hx; cases hx)⟩

/-- Claim C10: a room stored with a null password hash never verifies: the
valid flag is false for every possible hash argument, string or not. -/
theorem claim10_null_hash_never_valid (rooms : Rooms) (rid : String)
    (room : Room) (pwV : JSVal) (hsome : rooms.lookup rid = some room)
    (hnull : room.passwordHash = JSVal.null) :
    verifyPassword rooms (JSVal.str rid) pwV = (rooms, false) :=
  verifyPassword_null_hash rooms rid room pwV hsome hnull

/-- Witness for C10, covering a string, an empty-string, a null and a
numeric hash argument against an unprotected room. -/
theorem claim10_witness :
    List.lookup "ROOMGGGG" [("ROOMGGGG", (⟨["alice"], JSVal.null, 2⟩ : Room))] =
      some ⟨["alice"], JSVal.null, 2⟩ ∧
    (⟨["alice"], JSVal.null, 2⟩ : Room).passwordHash = JSVal.null ∧
    verifyPassword [("ROOMGGGG", ⟨["alice"], JSVal.null, 2⟩)] (JSVal.str "ROOMGGGG")
      (JSVal.str "guess") = ([("ROOMGGGG", ⟨["alice"], JSVal.null, 2⟩)], false) ∧
    verifyPassword [("ROOMGGGG", ⟨["alice"], JSVal.null, 2⟩)] (JSVal.str "ROOMGGGG")
      (JSVal.str "") = ([("ROOMGGGG", ⟨["alice"], JSVal.null, 2⟩)], false) ∧
    verifyPassword [("ROOMGGGG", ⟨["alice"], JSVal.null, 2⟩)] (JSVal.str "ROOMGGGG")
      JSVal.null = ([("ROOMGGGG", ⟨["alice"], JSVal.null, 2⟩)], false) ∧
    verifyPassword [("ROOMGGGG", ⟨["alice"], JSVal.null, 2⟩)] (JSVal.str "ROOMGGGG")
      (JSVal.num 7) = ([("ROOMGGGG", ⟨["alice"], JSVal.null, 2⟩)], false) :=
  ⟨rfl, rfl,
    claim10_null_hash_never_valid _ "ROOMGGGG" _ (JSVal.str "guess") rfl rfl,
    claim10_null_hash_never_valid _ "ROOMGGGG" _ (JSVal.str "") rfl rfl,
    claim10_null_hash_never_valid _ "ROOMGGGG" _ JSVal.null rfl rfl,
    claim10_null_hash_never_valid _ "ROOMGGGG" _ (JSVal.num 7) rfl rfl⟩


/-- Counterexample for C5: the claim requires a NON-empty name for a relay,
but a file-meta payload whose metadata name is the empty string is
relayed to the other room member regardless. -/
theorem claim5_counterexample :
    jsGet (jsGet (JSVal.obj [("roomId", JSVal.str "ABCDEFGH"),
        ("metadata", JSVal.obj [("name", JSVal.str ""), ("size", JSVal.num 100)])])
      "metadata") "name" = JSVal.str "" ∧
    (fileMetaHandler [("ABCDEFGH", ⟨["alice", "bob"], JSVal.null, 0⟩)] "alice"
        (JSVal.obj [("roomId", JSVal.str "ABCDEFGH"),
          ("metadata", JSVal.obj [("name", JSVal.str ""), ("size", JSVal.num 100)])])).2 =
      [("bob", ServerMsg.fileMetaMsg
        (JSVal.obj [("name", JSVal.str ""), ("size", JSVal.num 100)]))] :=
  ⟨rfl, rfl⟩

/-- Claim C5 as amended: a file-meta message is relayed verbatim to the other
room members exactly when the payload is a well-formed object with a
valid room id and metadata whose name is a string (possibly empty) and
whose size is a number in the range 0 to 10 GiB; otherwise it is
silently dropped, and the registry is never touched. -/
theorem claim5_file_meta_relay_iff (rooms : Rooms) (sender : String)
    (data : JSVal) :
    (fileMetaHandler rooms sender data).1 = rooms ∧
    (fileMetaHandler rooms sender data).2 =
      (if specFileMetaValid data then
        emitToRoom rooms (asString (jsGet data "roomId")) sender
          (ServerMsg.fileMetaMsg (jsGet data "metadata"))
      else []) := by
  constructor
  · simp only [fileMetaHandler]
    split
    · rfl
    · split
      · rfl
      · rfl
  · simp only [fileMetaHandler]
    split
    · rename_i hA
      have hspec : specFileMetaValid data = false := by
        rcases Bool.or_eq_true_iff.mp hA with h | h
        · rcases Bool.or_eq_true_iff.mp h with h2 | h2
          · simp only [Bool.not_eq_true'] at h2
            simp [specFileMetaValid, h2]
          · simp only [Bool.not_eq_true'] at h2
            simp [specFileMetaValid, h2]
        · simp only [bne_iff_ne, ne_eq] at h
          simp [specFileMetaValid, h]
      simp [hspec]
    · rename_i hA
      rw [Bool.not_eq_true] at hA
      simp only [Bool.or_eq_false_iff] at hA
      obtain ⟨⟨hA1, hA2⟩, hA3⟩ := hA
      simp at hA1 hA2
      simp only [bne_eq_false_iff_eq] at hA3
      split
      · rename_i hB
        have hspec : specFileMetaValid data = false := by
          rcases Bool.or_eq_true_iff.mp hB with h | h
          · rcases Bool.or_eq_true_iff.mp h with h2 | h2
            · rcases Bool.or_eq_true_iff.mp h2 with h3 | h3
              · simp only [bne_iff_ne, ne_eq] at h3
                simp [specFileMetaValid, h3]
              · simp only [bne_iff_ne, ne_eq] at h3
                simp [specFileMetaValid, h3]
            · simp only [decide_eq_true_eq] at h2
              have hd : decide (0 ≤ asNum (jsGet (jsGet data "metadata") "size")) = false := by
                simp only [decide_eq_false_iff_not]
                omega
              simp [specFileMetaValid, hd]
          · simp only [decide_eq_true_eq, gt_iff_lt] at h
            have hd : decide (asNum (jsGet (jsGet data "metadata") "size") ≤ MAX_FILE_SIZE) = false := by
              simp only [decide_eq_false_iff_not]
              omega
            simp [specFileMetaValid, hd]
        simp [hspec]
      · rename_i hB
        rw [Bool.not_eq_true] at hB
        simp only [Bool.or_eq_false_iff] at hB
        obtain ⟨⟨⟨hB1, hB2⟩, hB3⟩, hB4⟩ := hB
        simp only [bne_eq_false_iff_eq] at hB1 hB2
        simp only [decide_eq_false_iff_not] at hB3 hB4
        have hspec : specFileMetaValid data = true := by
          simp only [gt_iff_lt, not_lt] at hB3 hB4
          simp [specFileMetaValid, hA1, hA2, hA3, hB1, hB2]
          omega
        simp [hspec]

theorem runAdmits_append (m : RateMap) (ip : String) (xs ys : List Nat) :
    runAdmits m ip (xs ++ ys) =
      ((runAdmits (runAdmits m ip xs).1 ip ys).1,
        (runAdmits m ip xs).2 ++ (runAdmits (runAdmits m ip xs).1 ip ys).2) := by
  induction xs generalizing m with
  | nil => simp [runAdmits]
  | cons t ts ih => simp [runAdmits, ih]

theorem runAdmits_single_full (ip : String) (w : Nat) (ts : List Nat) (c : Nat)
    (hc : 1 ≤ c) (hlen : c + ts.length ≤ MAX_CONNECTIONS_PER_IP)
    (hts : ∀ t ∈ ts, t - w ≤ RATE_LIMIT_WINDOW) :
    runAdmits [(ip, ⟨c, w⟩)] ip ts =
      ([(ip, ⟨c + ts.length, w⟩)], List.replicate ts.length true) := by
  induction ts generalizing c with
  | nil => simp [runAdmits]
  | cons t ts ih =>
    have hlook : List.lookup ip [(ip, (⟨c, w⟩ : RateState))] = some ⟨c, w⟩ := by
      simp [List.lookup]
    have hwin : t - w ≤ RATE_LIMIT_WINDOW := hts t (by simp)
    have hcnt : ¬(c ≥ MAX_CONNECTIONS_PER_IP) := by
      simp only [List.length_cons] at hlen
      omega
    have hstep : rateLimitAdmit [(ip, ⟨c, w⟩)] ip t = ([(ip, ⟨c + 1, w⟩)], true) := by
      simp [rateLimitAdmit, hlook, hwin, hcnt, mapSet]
    have hrec := ih (c + 1) (by omega)
      (by simp only [List.length_cons] at hlen; omega)
      (fun u hu => hts u (by simp [hu]))
    simp only [runAdmits, hstep, hrec]
    have harith : c + 1 + ts.length = c + (ts.length + 1) := by omega
    simp [harith, List.replicate_succ]

/-- Claim C6: from a clean slate, the first ten connection attempts of one
address inside the sixty-second window starting at the first attempt
are admitted, the eleventh inside the window is rejected; and the
first attempt after the window has expired is admitted and resets the
state to a count of one with a fresh window start. -/
theorem claim6_rate_limiting (ip : String) (t0 t11 : Nat) (ts : List Nat)
    (hlen : ts.length = 9)
    (hts : ∀ t ∈ ts, t - t0 ≤ RATE_LIMIT_WINDOW)
    (h11 : t11 - t0 ≤ RATE_LIMIT_WINDOW)
    (m : RateMap) (c w now2 : Nat) (hm : m.lookup ip = some ⟨c, w⟩)
    (hexp : ¬(now2 - w ≤ RATE_LIMIT_WINDOW)) :
    (runAdmits [] ip ((t0 :: ts) ++ [t11])).2 =
      List.replicate MAX_CONNECTIONS_PER_IP true ++ [false] ∧
    rateLimitAdmit m ip now2 = (mapSet m ip ⟨1, now2⟩, true) := by
  constructor
  · have h0 : rateLimitAdmit [] ip t0 = ([(ip, ⟨1, t0⟩)], true) := by
      simp [rateLimitAdmit, List.lookup, mapSet]
    have hfull := runAdmits_single_full ip t0 ts 1 (by omega)
      (by simp [MAX_CONNECTIONS_PER_IP, hlen]) hts
    have hfirst : runAdmits [] ip (t0 :: ts) =
        ([(ip, ⟨1 + ts.length, t0⟩)], true :: List.replicate ts.length true) := by
      simp only [runAdmits, h0, hfull]
    have hlast : rateLimitAdmit [(ip, (⟨1 + ts.length, t0⟩ : RateState))] ip t11 =
        ([(ip, ⟨1 + ts.length, t0⟩)], false) := by
      have hlook : List.lookup ip [(ip, (⟨1 + ts.length, t0⟩ : RateState))] =
          some ⟨1 + ts.length, t0⟩ := by simp [List.lookup]
      have hcnt : 1 + ts.length ≥ MAX_CONNECTIONS_PER_IP := by
        simp [MAX_CONNECTIONS_PER_IP, hlen]
      simp [rateLimitAdmit, hlook, h11, hcnt]
    rw [runAdmits_append, hfirst]
    simp only [runAdmits, hlast]
    simp [hlen, MAX_CONNECTIONS_PER_IP, List.replicate_succ]
  · simp [rateLimitAdmit, hm, hexp]

/-- Witness for C6: ten attempts at time zero admitted, the eleventh
rejected; a later attempt after the window expired admitted with a
reset state. -/
theorem claim6_witness :
    (List.replicate 9 0).length = 9 ∧
    (0 - 0 ≤ RATE_LIMIT_WINDOW) ∧
    List.lookup "ip1" [("ip1", (⟨5, 0⟩ : RateState))] = some ⟨5, 0⟩ ∧
    ¬(70000 - 0 ≤ RATE_LIMIT_WINDOW) ∧
    (runAdmits [] "ip1" ((0 :: List.replicate 9 0) ++ [0])).2 =
      List.replicate MAX_CONNECTIONS_PER_IP true ++ [false] ∧
    rateLimitAdmit [("ip1", ⟨5, 0⟩)] "ip1" 70000 =
      (mapSet [("ip1", ⟨5, 0⟩)] "ip1" ⟨1, 70000⟩, true) := by
  have h := claim6_rate_limiting "ip1" 0 0 (List.replicate 9 0) rfl
    (by decide) (by decide) [("ip1", ⟨5, 0⟩)] 5 0 70000 rfl (by decide)
  exact ⟨rfl, by decide, rfl, by decide, h.1, h.2⟩

theorem removeUser_not_mem (users : List String) (sid : String) :
    sid ∉ removeUser users sid := by
  simp [removeUser, List.mem_filter]

theorem disconnectCleanup_keys_subset (rooms : Rooms) (sid : String) :
    ∀ p ∈ (disconnectCleanup rooms sid).1, p.1 ∈ rooms.map Prod.fst := by
  induction rooms with
  | nil => simp [disconnectCleanup]
  | cons q rest ih =>
    obtain ⟨rid, room⟩ := q
    intro p hp
    by_cases h : sid ∈ room.users
    · by_cases he : (removeUser room.users sid).isEmpty
      · simp only [disconnectCleanup, if_pos h, if_pos he] at hp
        exact List.mem_cons_of_mem _ (ih p hp)
      · simp only [disconnectCleanup, if_pos h, if_neg he] at hp
        rcases List.mem_cons.mp hp with rfl | hp2
        · simp
        · exact List.mem_cons_of_mem _ (ih p hp2)
    · simp only [disconnectCleanup, if_neg h] at hp
      rcases List.mem_cons.mp hp with rfl | hp2
      · simp
      · exact List.mem_cons_of_mem _ (ih p hp2)

theorem disconnectCleanup_removes (rooms : Rooms) (sid : String) :
    ((disconnectCleanup rooms sid).1.all
      (fun p => !decide (sid ∈ p.2.users))) = true := by
  induction rooms with
  | nil => simp [disconnectCleanup]
  | cons q rest ih =>
    obtain ⟨rid, room⟩ := q
    by_cases h : sid ∈ room.users
    · by_cases he : (removeUser room.users sid).isEmpty
      · simp only [disconnectCleanup, if_pos h, if_pos he]
        exact ih
      · simp only [disconnectCleanup, if_pos h, if_neg he]
        rw [List.all_cons]
        refine (Bool.and_eq_true _ _).mpr ⟨?_, ih⟩
        simp [removeUser_not_mem]
    · simp only [disconnectCleanup, if_neg h]
      rw [List.all_cons]
      refine (Bool.and_eq_true _ _).mpr ⟨?_, ih⟩
      simp [h]

theorem disconnectCleanup_broadcasts (rooms : Rooms) (sid rid : String)
    (room : Room) (hmem : (rid, room) ∈ rooms) (hin : sid ∈ room.users) :
    (rid, removeUser room.users sid) ∈ (disconnectCleanup rooms sid).2 := by
  induction rooms with
  | nil => cases hmem
  | cons q rest ih =>
    obtain ⟨rid0, room0⟩ := q
    rcases List.mem_cons.mp hmem with heq | hmemrest
    · obtain ⟨rfl, rfl⟩ := Prod.mk.injEq .. |>.mp heq
      by_cases he : (removeUser room.users sid).isEmpty
      · simp [disconnectCleanup, hin, he]
      · simp [disconnectCleanup, hin, he]
    · by_cases h : sid ∈ room0.users
      · by_cases he : (removeUser room0.users sid).isEmpty
        · simp only [disconnectCleanup, if_pos h, if_pos he]
          exact List.mem_cons_of_mem _ (ih hmemrest)
        · simp only [disconnectCleanup, if_pos h, if_neg he]
          exact List.mem_cons_of_mem _ (ih hmemrest)
      · simp only [disconnectCleanup, if_neg h]
        exact ih hmemrest

theorem disconnectCleanup_broadcast_count (rooms : Rooms) (sid : String) :
    (disconnectCleanup rooms sid).2.length =
      (rooms.filter (fun p => decide (sid ∈ p.2.users))).length := by
  induction rooms with
  | nil => simp [disconnectCleanup]
  | cons q rest ih =>
    obtain ⟨rid, room⟩ := q
    by_cases h : sid ∈ room.users
    · by_cases he : (removeUser room.users sid).isEmpty
      · simp [disconnectCleanup, h, he, List.filter, ih]
      · simp [disconnectCleanup, h, he, List.filter, ih]
    · simp [disconnectCleanup, h, List.filter, ih]

theorem disconnectCleanup_deletes_empty (rooms : Rooms) (sid rid2 : String)
    (room2 : Room) (hnd : (rooms.map Prod.fst).Nodup)
    (hmem : (rid2, room2) ∈ rooms) (hin : sid ∈ room2.users)
    (hemp : (removeUser room2.users sid).isEmpty = true) :
    ((disconnectCleanup rooms sid).1.all (fun p => p.1 != rid2)) = true := by
  induction rooms with
  | nil => cases hmem
  | cons q rest ih =>
    obtain ⟨rid, room⟩ := q
    simp only [List.map_cons, List.nodup_cons] at hnd
    obtain ⟨hnotin, hndrest⟩ := hnd
    rcases List.mem_cons.mp hmem with heq | hmemrest
    · obtain ⟨rfl, rfl⟩ := Prod.mk.injEq .. |>.mp heq
      simp only [disconnectCleanup, if_pos hin, if_pos hemp]
      rw [List.all_eq_true]
      intro p hp
      have hk := disconnectCleanup_keys_subset rest sid p hp
      have : p.1 ≠ rid2 := fun hc => hnotin (hc ▸ hk)
      simp [this]
    · have hrid2 : rid2 ∈ rest.map Prod.fst :=
        List.mem_map.mpr ⟨(rid2, room2), hmemrest, rfl⟩
      have hne : rid ≠ rid2 := fun hc => hnotin (hc ▸ hrid2)
      by_cases h : sid ∈ room.users
      · by_cases he : (removeUser room.users sid).isEmpty
        · simp only [disconnectCleanup, if_pos h, if_pos he]
          exact ih hndrest hmemrest
        · simp only [disconnectCleanup, if_pos h, if_neg he]
          rw [List.all_cons]
          refine (Bool.and_eq_true _ _).mpr ⟨by simp [hne], ih hndrest hmemrest⟩
      · simp only [disconnectCleanup, if_neg h]
        rw [List.all_cons]
        refine (Bool.and_eq_true _ _).mpr ⟨by simp [hne], ih hndrest hmemrest⟩

theorem disconnectCleanup_noop (rooms : Rooms) (sid : String)
    (h : rooms.all (fun p => !decide (sid ∈ p.2.users)) = true) :
    disconnectCleanup rooms sid = (rooms, []) := by
  induction rooms with
  | nil => simp [disconnectCleanup]
  | cons q rest ih =>
    obtain ⟨rid, room⟩ := q
    rw [List.all_cons] at h
    obtain ⟨h1, h2⟩ := Bool.and_eq_true _ _ |>.mp h
    have hnot : sid ∉ room.users := by simpa using h1
    simp [disconnectCleanup, hnot, ih h2]

/-- Claim C7: on disconnect the socket id is removed from every room member
set; each affected room broadcasts a user-left notice to its remaining
members; a room whose member set becomes empty disappears from the
registry; a disconnect with no memberships changes nothing and
broadcasts nothing; and there is exactly one notice per affected room. -/
theorem claim7_disconnect_cleanup (rooms : Rooms) (sid rid1 rid2 : String)
    (room1 room2 : Room) :
    ((disconnectCleanup rooms sid).1.all
      (fun p => !decide (sid ∈ p.2.users))) = true ∧
    ((rid1, room1) ∈ rooms → sid ∈ room1.users →
      (rid1, removeUser room1.users sid) ∈ (disconnectCleanup rooms sid).2) ∧
    ((disconnectCleanup rooms sid).2.length =
      (rooms.filter (fun p => decide (sid ∈ p.2.users))).length) ∧
    ((rooms.map Prod.fst).Nodup → (rid2, room2) ∈ rooms → sid ∈ room2.users →
      (removeUser room2.users sid).isEmpty = true →
      ((disconnectCleanup rooms sid).1.all (fun p => p.1 != rid2)) = true) ∧
    (rooms.all (fun p => !decide (sid ∈ p.2.users)) = true →
      disconnectCleanup rooms sid = (rooms, [])) :=
  ⟨disconnectCleanup_removes rooms sid,
   fun hmem hin => disconnectCleanup_broadcasts rooms sid rid1 room1 hmem hin,
   disconnectCleanup_broadcast_count rooms sid,
   fun hnd hmem hin hemp =>
     disconnectCleanup_deletes_empty rooms sid rid2 room2 hnd hmem hin hemp,
   fun h => disconnectCleanup_noop rooms sid h⟩

/-- Witness for C7 on a concrete registry: alice leaves a two-member room
(bob gets the notice), her singleton room is deleted, and a disconnect
of a stranger changes nothing. -/
theorem claim7_witness :
    ((disconnectCleanup
        [("ROOMAAAA", ⟨["alice", "bob"], JSVal.null, 0⟩),
         ("ROOMBBBB", ⟨["alice"], JSVal.null, 0⟩)] "alice").1.all
      (fun p => !decide ("alice" ∈ p.2.users))) = true ∧
    (("ROOMAAAA", (⟨["alice", "bob"], JSVal.null, 0⟩ : Room)) ∈
        ([("ROOMAAAA", ⟨["alice", "bob"], JSVal.null, 0⟩),
          ("ROOMBBBB", ⟨["alice"], JSVal.null, 0⟩)] : Rooms)) ∧
    ("ROOMAAAA", removeUser ["alice", "bob"] "alice") ∈
      (disconnectCleanup
        [("ROOMAAAA", ⟨["alice", "bob"], JSVal.null, 0⟩),
         ("ROOMBBBB", ⟨["alice"], JSVal.null, 0⟩)] "alice").2 ∧
    (disconnectCleanup
        [("ROOMAAAA", ⟨["alice", "bob"], JSVal.null, 0⟩),
         ("ROOMBBBB", ⟨["alice"], JSVal.null, 0⟩)] "alice").2.length =
      (([("ROOMAAAA", ⟨["alice", "bob"], JSVal.null, 0⟩),
         ("ROOMBBBB", ⟨["alice"], JSVal.null, 0⟩)] : Rooms).filter
        (fun p => decide ("alice" ∈ p.2.users))).length ∧
    ((disconnectCleanup
        [("ROOMAAAA", ⟨["alice", "bob"], JSVal.null, 0⟩),
         ("ROOMBBBB", ⟨["alice"], JSVal.null, 0⟩)] "alice").1.all
      (fun p => p.1 != "ROOMBBBB")) = true ∧
    disconnectCleanup
        [("ROOMAAAA", ⟨["alice", "bob"], JSVal.null, 0⟩),
         ("ROOMBBBB", ⟨["alice"], JSVal.null, 0⟩)] "carol" =
      ([("ROOMAAAA", ⟨["alice", "bob"], JSVal.null, 0⟩),
        ("ROOMBBBB", ⟨["alice"], JSVal.null, 0⟩)], []) := by
  have h := claim7_disconnect_cleanup
    [("ROOMAAAA", ⟨["alice", "bob"], JSVal.null, 0⟩),
     ("ROOMBBBB", ⟨["alice"], JSVal.null, 0⟩)] "alice"
    "ROOMAAAA" "ROOMBBBB" ⟨["alice", "bob"], JSVal.null, 0⟩
    ⟨["alice"], JSVal.null, 0⟩
  have hcarol := claim7_disconnect_cleanup
    [("ROOMAAAA", ⟨["alice", "bob"], JSVal.null, 0⟩),
     ("ROOMBBBB", ⟨["alice"], JSVal.null, 0⟩)] "carol"
    "ROOMAAAA" "ROOMBBBB" ⟨["alice", "bob"], JSVal.null, 0⟩
    ⟨["alice"], JSVal.null, 0⟩
  refine ⟨h.1, List.mem_cons_self _ _,
    h.2.1 (List.mem_cons_self _ _) (by decide), h.2.2.1,
    h.2.2.2.1 (by simp) (List.mem_cons_of_mem _ (List.mem_cons_self _ _))
      (by decide) (by decide),
    hcarol.2.2.2.2 (by decide)⟩

/-- Claim C8: the periodic sweep keeps a room exactly when it is not both
strictly older than the ten-minute timeout and empty of members; a
room with a member is never swept regardless of age, and a room at
most as old as the timeout is never swept. -/
theorem claim8_sweep_invariant (rooms : Rooms) (now : Nat)
    (p : String × Room) :
    (p ∈ sweepRooms rooms now ↔
      p ∈ rooms ∧ ¬(ROOM_TIMEOUT < now - p.2.createdAt ∧ p.2.users = [])) ∧
    (p ∈ rooms → p.2.users ≠ [] → p ∈ sweepRooms rooms now) ∧
    (p ∈ rooms → now - p.2.createdAt ≤ ROOM_TIMEOUT → p ∈ sweepRooms rooms now) := by
  have hiff : p ∈ sweepRooms rooms now ↔
      p ∈ rooms ∧ ¬(ROOM_TIMEOUT < now - p.2.createdAt ∧ p.2.users = []) := by
    unfold sweepRooms
    rw [List.mem_filter]
    constructor
    · rintro ⟨hmem, hflag⟩
      refine ⟨hmem, fun hb => ?_⟩
      obtain ⟨hage, hemp⟩ := hb
      rw [hemp] at hflag
      simp [hage] at hflag
    · rintro ⟨hmem, hnb⟩
      refine ⟨hmem, ?_⟩
      by_cases hage : ROOM_TIMEOUT < now - p.2.createdAt
      · have hemp : p.2.users ≠ [] := fun hc => hnb ⟨hage, hc⟩
        have : p.2.users.isEmpty = false := by
          cases hu : p.2.users
          · exact absurd hu hemp
          · rfl
        simp [this]
      · simp [hage]
  refine ⟨hiff, ?_, ?_⟩
  · intro hp hu
    exact hiff.mpr ⟨hp, fun hb => hu hb.2⟩
  · intro hp hage
    exact hiff.mpr ⟨hp, fun hb => absurd hb.1 (by omega)⟩

/-- Witness for C8: an old room with one member survives the sweep; a
young empty room survives the sweep; an old empty room is removed. -/
theorem claim8_witness :
    (("OLDFULLAA", (⟨["x"], JSVal.null, 0⟩ : Room)) ∈
      ([("OLDFULLAA", ⟨["x"], JSVal.null, 0⟩),
        ("NEWEMPTYAA", ⟨[], JSVal.null, 999999⟩),
        ("OLDEMPTYAA", ⟨[], JSVal.null, 0⟩)] : Rooms)) ∧
    (⟨["x"], JSVal.null, 0⟩ : Room).users ≠ [] ∧
    ("OLDFULLAA", (⟨["x"], JSVal.null, 0⟩ : Room)) ∈
      sweepRooms [("OLDFULLAA", ⟨["x"], JSVal.null, 0⟩),
        ("NEWEMPTYAA", ⟨[], JSVal.null, 999999⟩),
        ("OLDEMPTYAA", ⟨[], JSVal.null, 0⟩)] 1000000 ∧
    (("NEWEMPTYAA", (⟨[], JSVal.null, 999999⟩ : Room)) ∈
      ([("OLDFULLAA", ⟨["x"], JSVal.null, 0⟩),
        ("NEWEMPTYAA", ⟨[], JSVal.null, 999999⟩),
        ("OLDEMPTYAA", ⟨[], JSVal.null, 0⟩)] : Rooms)) ∧
    ((1000000 : Nat) - (⟨[], JSVal.null, 999999⟩ : Room).createdAt ≤ ROOM_TIMEOUT) ∧
    ("NEWEMPTYAA", (⟨[], JSVal.null, 999999⟩ : Room)) ∈
      sweepRooms [("OLDFULLAA", ⟨["x"], JSVal.null, 0⟩),
        ("NEWEMPTYAA", ⟨[], JSVal.null, 999999⟩),
        ("OLDEMPTYAA", ⟨[], JSVal.null, 0⟩)] 1000000 ∧
    ¬(("OLDEMPTYAA", (⟨[], JSVal.null, 0⟩ : Room)) ∈
      sweepRooms [("OLDFULLAA", ⟨["x"], JSVal.null, 0⟩),
        ("NEWEMPTYAA", ⟨[], JSVal.null, 999999⟩),
        ("OLDEMPTYAA", ⟨[], JSVal.null, 0⟩)] 1000000) := by
  have h1 := claim8_sweep_invariant
    [("OLDFULLAA", ⟨["x"], JSVal.null, 0⟩),
     ("NEWEMPTYAA", ⟨[], JSVal.null, 999999⟩),
     ("OLDEMPTYAA", ⟨[], JSVal.null, 0⟩)] 1000000
    ("OLDFULLAA", ⟨["x"], JSVal.null, 0⟩)
  have h2 := claim8_sweep_invariant
    [("OLDFULLAA", ⟨["x"], JSVal.null, 0⟩),
     ("NEWEMPTYAA", ⟨[], JSVal.null, 999999⟩),
     ("OLDEMPTYAA", ⟨[], JSVal.null, 0⟩)] 1000000
    ("NEWEMPTYAA", ⟨[], JSVal.null, 999999⟩)
  have h3 := claim8_sweep_invariant
    [("OLDFULLAA", ⟨["x"], JSVal.null, 0⟩),
     ("NEWEMPTYAA", ⟨[], JSVal.null, 999999⟩),
     ("OLDEMPTYAA", ⟨[], JSVal.null, 0⟩)] 1000000
    ("OLDEMPTYAA", ⟨[], JSVal.null, 0⟩)
  refine ⟨List.mem_cons_self _ _, by decide,
    h1.2.1 (List.mem_cons_self _ _) (by decide),
    List.mem_cons_of_mem _ (List.mem_cons_self _ _), by decide,
    h2.2.2 (List.mem_cons_of_mem _ (List.mem_cons_self _ _)) (by decide), ?_⟩
  intro hmem
  have hb := (h3.1.mp hmem).2
  exact hb ⟨by decide, rfl⟩

theorem emitToRoom_delivers (rooms : Rooms) (rid sender m : String)
    (room : Room) (msg : ServerMsg) (hsome : rooms.lookup rid = some room)
    (hm : m ∈ room.users) (hne : m ≠ sender) :
    (m, msg) ∈ emitToRoom rooms rid sender msg := by
  unfold emitToRoom
  rw [hsome]
  refine List.mem_map.mpr ⟨m, List.mem_filter.mpr ⟨hm, ?_⟩, rfl⟩
  simp [hne]

theorem emitToRoom_excludes_sender (rooms : Rooms) (rid sender : String)
    (msg : ServerMsg) :
    ((emitToRoom rooms rid sender msg).all (fun q => q.1 != sender)) = true := by
  unfold emitToRoom
  cases h : rooms.lookup rid
  · simp
  · rw [List.all_eq_true]
    intro q hq
    obtain ⟨u, hu, rfl⟩ := List.mem_map.mp hq
    exact (List.mem_filter.mp hu).2

theorem offerHandler_valid (rooms : Rooms) (rid sender : String) (sdp : JSVal)
    (hvalid : validRoomIdStr rid = true) (hsdp : truthy sdp = true) :
    offerHandler rooms sender
        (JSVal.obj [("roomId", JSVal.str rid), ("sdp", sdp)]) =
      (rooms, emitToRoom rooms rid sender (ServerMsg.offerMsg sdp sender)) := by
  have htr : truthy (JSVal.obj [("roomId", JSVal.str rid), ("sdp", sdp)]) = true := rfl
  simp [offerHandler, isValidSocketData, jsTypeof, jsGet, List.lookup,
    isValidRoomId, asString, hvalid, htr, hsdp]

theorem answerHandler_valid (rooms : Rooms) (rid sender : String) (sdp : JSVal)
    (hvalid : validRoomIdStr rid = true) (hsdp : truthy sdp = true) :
    answerHandler rooms sender
        (JSVal.obj [("roomId", JSVal.str rid), ("sdp", sdp)]) =
      (rooms, emitToRoom rooms rid sender (ServerMsg.answerMsg sdp sender)) := by
  have htr : truthy (JSVal.obj [("roomId", JSVal.str rid), ("sdp", sdp)]) = true := rfl
  simp [answerHandler, isValidSocketData, jsTypeof, jsGet, List.lookup,
    isValidRoomId, asString, hvalid, htr, hsdp]

theorem iceCandidateHandler_valid (rooms : Rooms) (rid sender : String)
    (cand : JSVal) (hvalid : validRoomIdStr rid = true)
    (hcand : truthy cand = true) :
    iceCandidateHandler rooms sender
        (JSVal.obj [("roomId", JSVal.str rid), ("candidate", cand)]) =
      (rooms, emitToRoom rooms rid sender
        (ServerMsg.iceCandidateMsg cand sender)) := by
  have htr : truthy (JSVal.obj [("roomId", JSVal.str rid), ("candidate", cand)]) = true := rfl
  simp [iceCandidateHandler, isValidSocketData, jsTypeof, jsGet,
    List.lookup, isValidRoomId, asString, hvalid, htr, hcand]

theorem fileMetaHandler_valid (rooms : Rooms) (rid sender nm : String)
    (sz : Int) (hvalid : validRoomIdStr rid = true)
    (hsz0 : 0 ≤ sz) (hszM : sz ≤ MAX_FILE_SIZE) :
    fileMetaHandler rooms sender
        (JSVal.obj [("roomId", JSVal.str rid),
          ("metadata", JSVal.obj [("name", JSVal.str nm), ("size", JSVal.num sz)])]) =
      (rooms, emitToRoom rooms rid sender (ServerMsg.fileMetaMsg
        (JSVal.obj [("name", JSVal.str nm), ("size", JSVal.num sz)]))) := by
  have h1 : ¬(asNum (JSVal.num sz) < 0) := by simp [asNum]; omega
  have h2 : ¬(asNum (JSVal.num sz) > MAX_FILE_SIZE) := by simp [asNum]; omega
  have htr : truthy (JSVal.obj [("roomId", JSVal.str rid),
      ("metadata", JSVal.obj [("name", JSVal.str nm), ("size", JSVal.num sz)])]) = true := rfl
  have htr2 : truthy (JSVal.obj [("name", JSVal.str nm), ("size", JSVal.num sz)]) = true := rfl
  simp [fileMetaHandler, isValidSocketData, jsTypeof, jsGet,
    List.lookup, isValidRoomId, asString, hvalid, htr, htr2, h1, h2]

theorem transferDoneHandler_valid (rooms : Rooms) (rid sender : String)
    (hvalid : validRoomIdStr rid = true) :
    transferDoneHandler rooms sender (JSVal.obj [("roomId", JSVal.str rid)]) =
      (rooms, emitToRoom rooms rid sender ServerMsg.transferDoneMsg) := by
  have htr : truthy (JSVal.obj [("roomId", JSVal.str rid)]) = true := rfl
  simp [transferDoneHandler, isValidSocketData, jsTypeof, jsGet,
    List.lookup, isValidRoomId, asString, hvalid, htr]

theorem transferConfirmedHandler_valid (rooms : Rooms) (rid sender : String)
    (hvalid : validRoomIdStr rid = true) :
    transferConfirmedHandler rooms sender
        (JSVal.obj [("roomId", JSVal.str rid)]) =
      (rooms, emitToRoom rooms rid sender ServerMsg.transferConfirmedMsg) := by
  have htr : truthy (JSVal.obj [("roomId", JSVal.str rid)]) = true := rfl
  simp [transferConfirmedHandler, isValidSocketData, jsTypeof, jsGet,
    List.lookup, isValidRoomId, asString, hvalid, htr]

/-- Claim C9: each valid relayed message from a sender to a room is delivered
to every other current member of the room and never back to the sender,
and the offer, answer and ice-candidate payloads carry the sender id in
the from field. -/
theorem claim9_relay_fanout_exclusion (rooms : Rooms)
    (rid sender m nm : String) (room : Room) (sdp cand : JSVal) (sz : Int)
    (hvalid : validRoomIdStr rid = true)
    (hsome : rooms.lookup rid = some room)
    (hm : m ∈ room.users) (hne : m ≠ sender)
    (hsdp : truthy sdp = true) (hcand : truthy cand = true)
    (hsz0 : 0 ≤ sz) (hszM : sz ≤ MAX_FILE_SIZE) :
    ((m, ServerMsg.offerMsg sdp sender) ∈ (offerHandler rooms sender
        (JSVal.obj [("roomId", JSVal.str rid), ("sdp", sdp)])).2 ∧
      ((offerHandler rooms sender
        (JSVal.obj [("roomId", JSVal.str rid), ("sdp", sdp)])).2.all
          (fun q => q.1 != sender)) = true) ∧
    ((m, ServerMsg.answerMsg sdp sender) ∈ (answerHandler rooms sender
        (JSVal.obj [("roomId", JSVal.str rid), ("sdp", sdp)])).2 ∧
      ((answerHandler rooms sender
        (JSVal.obj [("roomId", JSVal.str rid), ("sdp", sdp)])).2.all
          (fun q => q.1 != sender)) = true) ∧
    ((m, ServerMsg.iceCandidateMsg cand sender) ∈ (iceCandidateHandler rooms sender
        (JSVal.obj [("roomId", JSVal.str rid), ("candidate", cand)])).2 ∧
      ((iceCandidateHandler rooms sender
        (JSVal.obj [("roomId", JSVal.str rid), ("candidate", cand)])).2.all
          (fun q => q.1 != sender)) = true) ∧
    ((m, ServerMsg.fileMetaMsg (JSVal.obj [("name", JSVal.str nm),
        ("size", JSVal.num sz)])) ∈ (fileMetaHandler rooms sender
        (JSVal.obj [("roomId", JSVal.str rid), ("metadata",
          JSVal.obj [("name", JSVal.str nm), ("size", JSVal.num sz)])])).2 ∧
      ((fileMetaHandler rooms sender
        (JSVal.obj [("roomId", JSVal.str rid), ("metadata",
          JSVal.obj [("name", JSVal.str nm), ("size", JSVal.num sz)])])).2.all
          (fun q => q.1 != sender)) = true) ∧
    ((m, ServerMsg.transferDoneMsg) ∈ (transferDoneHandler rooms sender
        (JSVal.obj [("roomId", JSVal.str rid)])).2 ∧
      ((transferDoneHandler rooms sender
        (JSVal.obj [("roomId", JSVal.str rid)])).2.all
          (fun q => q.1 != sender)) = true) ∧
    ((m, ServerMsg.transferConfirmedMsg) ∈ (transferConfirmedHandler rooms sender
        (JSVal.obj [("roomId", JSVal.str rid)])).2 ∧
      ((transferConfirmedHandler rooms sender
        (JSVal.obj [("roomId", JSVal.str rid)])).2.all
          (fun q => q.1 != sender)) = true) := by
  rw [offerHandler_valid rooms rid sender sdp hvalid hsdp,
    answerHandler_valid rooms rid sender sdp hvalid hsdp,
    iceCandidateHandler_valid rooms rid sender cand hvalid hcand,
    fileMetaHandler_valid rooms rid sender nm sz hvalid hsz0 hszM,
    transferDoneHandler_valid rooms rid sender hvalid,
    transferConfirmedHandler_valid rooms rid sender hvalid]
  exact ⟨⟨emitToRoom_delivers rooms rid sender m room _ hsome hm hne,
      emitToRoom_excludes_sender rooms rid sender _⟩,
    ⟨emitToRoom_delivers rooms rid sender m room _ hsome hm hne,
      emitToRoom_excludes_sender rooms rid sender _⟩,
    ⟨emitToRoom_delivers rooms rid sender m room _ hsome hm hne,
      emitToRoom_excludes_sender rooms rid sender _⟩,
    ⟨emitToRoom_delivers rooms rid sender m room _ hsome hm hne,
      emitToRoom_excludes_sender rooms rid sender _⟩,
    ⟨emitToRoom_delivers rooms rid sender m room _ hsome hm hne,
      emitToRoom_excludes_sender rooms rid sender _⟩,
    ⟨emitToRoom_delivers rooms rid sender m room _ hsome hm hne,
      emitToRoom_excludes_sender rooms rid sender _⟩⟩

/-- Witness for C9 on a concrete two-member room. -/
theorem claim9_witness :
    validRoomIdStr "ABCDEFGH" = true ∧
    List.lookup "ABCDEFGH" ([("ABCDEFGH", ⟨["alice", "bob"], JSVal.null, 0⟩)] : Rooms) =
      some ⟨["alice", "bob"], JSVal.null, 0⟩ ∧
    "bob" ∈ ["alice", "bob"] ∧ "bob" ≠ "alice" ∧
    (("bob", ServerMsg.offerMsg (JSVal.str "sdpv") "alice") ∈ (offerHandler [("ABCDEFGH", ⟨["alice", "bob"], JSVal.null, 0⟩)] "alice"
        (JSVal.obj [("roomId", JSVal.str "ABCDEFGH"), ("sdp", JSVal.str "sdpv")])).2 ∧
      ((offerHandler [("ABCDEFGH", ⟨["alice", "bob"], JSVal.null, 0⟩)] "alice"
        (JSVal.obj [("roomId", JSVal.str "ABCDEFGH"), ("sdp", JSVal.str "sdpv")])).2.all
          (fun q => q.1 != "alice")) = true) ∧
    (("bob", ServerMsg.answerMsg (JSVal.str "sdpv") "alice") ∈ (answerHandler [("ABCDEFGH", ⟨["alice", "bob"], JSVal.null, 0⟩)] "alice"
        (JSVal.obj [("roomId", JSVal.str "ABCDEFGH"), ("sdp", JSVal.str "sdpv")])).2 ∧
      ((answerHandler [("ABCDEFGH", ⟨["alice", "bob"], JSVal.null, 0⟩)] "alice"
        (JSVal.obj [("roomId", JSVal.str "ABCDEFGH"), ("sdp", JSVal.str "sdpv")])).2.all
          (fun q => q.1 != "alice")) = true) ∧
    (("bob", ServerMsg.iceCandidateMsg (JSVal.str "candv") "alice") ∈
        (iceCandidateHandler [("ABCDEFGH", ⟨["alice", "bob"], JSVal.null, 0⟩)] "alice"
        (JSVal.obj [("roomId", JSVal.str "ABCDEFGH"), ("candidate", JSVal.str "candv")])).2 ∧
      ((iceCandidateHandler [("ABCDEFGH", ⟨["alice", "bob"], JSVal.null, 0⟩)] "alice"
        (JSVal.obj [("roomId", JSVal.str "ABCDEFGH"), ("candidate", JSVal.str "candv")])).2.all
          (fun q => q.1 != "alice")) = true) ∧
    (("bob", ServerMsg.fileMetaMsg (JSVal.obj [("name", JSVal.str "f.txt"),
        ("size", JSVal.num 100)])) ∈ (fileMetaHandler [("ABCDEFGH", ⟨["alice", "bob"], JSVal.null, 0⟩)] "alice"
        (JSVal.obj [("roomId", JSVal.str "ABCDEFGH"), ("metadata",
          JSVal.obj [("name", JSVal.str "f.txt"), ("size", JSVal.num 100)])])).2 ∧
      ((fileMetaHandler [("ABCDEFGH", ⟨["alice", "bob"], JSVal.null, 0⟩)] "alice"
        (JSVal.obj [("roomId", JSVal.str "ABCDEFGH"), ("metadata",
          JSVal.obj [("name", JSVal.str "f.txt"), ("size", JSVal.num 100)])])).2.all
          (fun q => q.1 != "alice")) = true) ∧
    (("bob", ServerMsg.transferDoneMsg) ∈ (transferDoneHandler [("ABCDEFGH", ⟨["alice", "bob"], JSVal.null, 0⟩)] "alice"
        (JSVal.obj [("roomId", JSVal.str "ABCDEFGH")])).2 ∧
      ((transferDoneHandler [("ABCDEFGH", ⟨["alice", "bob"], JSVal.null, 0⟩)] "alice"
        (JSVal.obj [("roomId", JSVal.str "ABCDEFGH")])).2.all
          (fun q => q.1 != "alice")) = true) ∧
    (("bob", ServerMsg.transferConfirmedMsg) ∈ (transferConfirmedHandler [("ABCDEFGH", ⟨["alice", "bob"], JSVal.null, 0⟩)] "alice"
        (JSVal.obj [("roomId", JSVal.str "ABCDEFGH")])).2 ∧
      ((transferConfirmedHandler [("ABCDEFGH", ⟨["alice", "bob"], JSVal.null, 0⟩)] "alice"
        (JSVal.obj [("roomId", JSVal.str "ABCDEFGH")])).2.all
          (fun q => q.1 != "alice")) = true) :=
  ⟨by decide, rfl, by decide, by decide,
    claim9_relay_fanout_exclusion [("ABCDEFGH", ⟨["alice", "bob"], JSVal.null, 0⟩)] "ABCDEFGH" "alice" "bob" "f.txt"
      ⟨["alice", "bob"], JSVal.null, 0⟩ (JSVal.str "sdpv") (JSVal.str "candv") 100
      (by decide) rfl (by decide) (by decide) (by decide) (by decide)
      (by decide) (by decide)⟩

end LFT
